import Mathlib

/-!
Verification development for the PSXImager tools (PSXBuild / PSXInject).

This file gives a shallow embedding of the disc-image layout engine of
PSXBuild (the `psxbuild.cpp` translation unit) and of the in-place file
injector PSXInject (`psxinject.cpp`), and proves the layout, allocation,
directory-sizing and error-handling properties stated about them.

Machine integers of the C++ source (`uint32_t`, `size_t`) are modelled as
`Nat`; the one place where unsigned wrap-around is semantically relevant
(the padding expression `(ISO_BLOCKSIZE - size) % ISO_BLOCKSIZE` in
`CalcDirSize::visit`) is modelled with an explicit `% 2 ^ 32`.
-/

set_option maxRecDepth 10000

namespace PSXImager

/-! ### Constants from libcdio / libvcd headers used by the source -/

/-- ISO 9660 logical block size (`ISO_BLOCKSIZE`). -/
def ISO_BLOCKSIZE : Nat := 2048

/-- Size of a raw XA Form-2 block including the 8 subheader bytes
(`M2RAW_SECTOR_SIZE`). -/
def M2RAW_SECTOR_SIZE : Nat := 2336

/-- XA Form-2 payload size (`M2F2_SECTOR_SIZE`), also the size of the
static `emptySector` buffer of zero bytes. -/
def M2F2_SECTOR_SIZE : Nat := 2324

/-- Size of the duplicated XA subheader at the front of a raw Form-2 block
(`CDIO_CD_SUBHEADER_SIZE`). -/
def CDIO_CD_SUBHEADER_SIZE : Nat := 8

/-- Size of a full raw Mode-2 sector (`CDIO_CD_FRAMESIZE_RAW`). -/
def CDIO_CD_FRAMESIZE_RAW : Nat := 2352

/-- Submode flag `SM_EOF` (end of file), bit 7. -/
def SM_EOF : Nat := 128

/-- Submode flag `SM_FORM2`, bit 5. -/
def SM_FORM2 : Nat := 32

/-- Submode flag `SM_DATA`, bit 3. -/
def SM_DATA : Nat := 8

/-- Submode flag `SM_EOR` (end of record), bit 0. -/
def SM_EOR : Nat := 1

/-- Maximum number of sectors in an image (`74 * 60 * 75`, 74 minutes). -/
def MAX_ISO_SECTORS : Nat := 74 * 60 * 75

/-- Fixed sector of the primary volume descriptor (`ISO_PVD_SECTOR`). -/
def ISO_PVD_SECTOR : Nat := 16

/-- Fixed sector of the volume descriptor set terminator
(`ISO_EVD_SECTOR`). -/
def ISO_EVD_SECTOR : Nat := 17

/-- Size in bytes of `iso9660_xa_t` (the XA extension record appended to
every directory record): two 16-bit IDs, 16-bit attributes, 2-byte
signature, file number byte and 5 reserved bytes. -/
def sizeof_iso9660_xa : Nat := 14

/-! ### FileNode sector count (`FileNode::FileNode`) -/

/-- Sector count of a file extent, as computed in the `FileNode`
constructor: `blockSize` is `M2RAW_SECTOR_SIZE` for Form-2 files and
`ISO_BLOCKSIZE` for Form-1 files, `numSectors` is the rounded-up quotient,
and an empty file is forced to occupy one sector. -/
def fileNumSectors (isForm2 : Bool) (size : Nat) : Nat :=
  let blockSize := if isForm2 then M2RAW_SECTOR_SIZE else ISO_BLOCKSIZE
  let numSectors := (size + blockSize - 1) / blockSize
  if numSectors = 0 then 1 else numSectors

/-- Block size used for a file, matching the selection made in both
`FileNode::FileNode` and the PSXInject main program. -/
def fileBlockSize (isForm2 : Bool) : Nat :=
  if isForm2 then M2RAW_SECTOR_SIZE else ISO_BLOCKSIZE

/-! ### Directory size calculation (`CalcDirSize::visit(DirNode &)`) -/

/-- Record size formula of the external libcdio helper
`iso9660_dir_calc_record_size(namelen, sizeof(iso9660_xa_t))`: 33 header
bytes plus the name, padded to an even length, plus the 14-byte XA
extension, padded to an even length again. -/
def iso9660DirCalcRecordSize (namelen : Nat) : Nat :=
  let length := 33 + namelen
  let length := if length % 2 = 1 then length + 1 else length
  let length := length + sizeof_iso9660_xa
  if length % 2 = 1 then length + 1 else length

/-- The C expression `(ISO_BLOCKSIZE - size) % ISO_BLOCKSIZE` evaluated in
`uint32_t` arithmetic: the subtraction wraps modulo `2 ^ 32`.  Because
`2048` divides `2 ^ 32`, this equals the number of bytes remaining in the
current 2048-byte block (see `boundaryPad_eq` below). -/
def boundaryPad (size : Nat) : Nat :=
  ((2 ^ 32 + ISO_BLOCKSIZE - size % 2 ^ 32) % 2 ^ 32) % ISO_BLOCKSIZE

/-- One iteration of the child loop of `CalcDirSize::visit`: compute the
record size for the child name, add the block-remainder padding when the
block index of `size` differs from the block index of `size + recordSize`,
and accumulate. -/
def calcDirStep (size : Nat) (namelen : Nat) : Nat :=
  let recordSize := iso9660DirCalcRecordSize namelen
  let recordSize :=
    if size / ISO_BLOCKSIZE ≠ (size + recordSize) / ISO_BLOCKSIZE then
      recordSize + boundaryPad size
    else recordSize
  size + recordSize

/-- The child loop of `CalcDirSize::visit`, over the name-sorted children. -/
def calcDirSizeAux (size : Nat) : List String → Nat
  | [] => size
  | name :: rest => calcDirSizeAux (calcDirStep size name.length) rest

/-- Byte size accumulated by `CalcDirSize::visit`: the records for `.` and
`..` (name length 1 each) followed by one record per child in name-sorted
order. -/
def calcDirSizeBytes (sortedNames : List String) : Nat :=
  calcDirSizeAux (iso9660DirCalcRecordSize 1 + iso9660DirCalcRecordSize 1) sortedNames

/-- Final directory extent size in sectors: the byte size rounded up to
whole blocks (`dir.numSectors = (size + ISO_BLOCKSIZE - 1) / ISO_BLOCKSIZE`). -/
def calcDirNumSectors (sortedNames : List String) : Nat :=
  (calcDirSizeBytes sortedNames + ISO_BLOCKSIZE - 1) / ISO_BLOCKSIZE

/-! ### The filesystem tree (`FSNode` / `FileNode` / `DirNode`) -/

/-- A filesystem tree node.  `name` is the on-disk identifier (file names
already carry the `;1` version suffix appended by the catalog parser),
`path` is the host filesystem path used in diagnostics,
`requestedStartSector` is the `@LBN` catalog request (0 = none).  A file
carries its backing bytes (`content`, whose length is the `size` field of
`FileNode`); a directory carries the serialized extent bytes `data`
produced for it by the `MakeDirectories` pass through the external libcdio
record serializer (the claims under verification do not constrain those
bytes, so they are carried as given data) and its children in catalog
declaration order. -/
inductive FSTree where
  | file (name path : String) (requestedStartSector : Nat) (isForm2 : Bool) (content : List Nat)
  | dir (name path : String) (requestedStartSector : Nat) (data : List Nat) (children : List FSTree)

/-- Name of a node (`FSNode::name`). -/
def FSTree.name : FSTree → String
  | .file n _ _ _ _ => n
  | .dir n _ _ _ _ => n

/-- Lexicographic comparison of two character sequences by code point,
the semantics of `std::string` `operator<` used by `CmpByName`. -/
def nameLtChars : List Char → List Char → Bool
  | [], [] => false
  | [], _ :: _ => true
  | _ :: _, [] => false
  | c :: cs, d :: ds =>
      if c.toNat < d.toNat then true
      else if d.toNat < c.toNat then false
      else nameLtChars cs ds

/-- The `CmpByName` comparison `lhs->name < rhs->name`. -/
def nameLt (x y : String) : Bool := nameLtChars x.data y.data

/-- Insertion of a node into a name-sorted list, used to model the
`std::sort` over `CmpByName` (`lhs->name < rhs->name`) that builds
`sortedChildren`; ties between equal names are kept in declaration order
(the C++ sort leaves their relative order unspecified). -/
def insertByName (x : FSTree) : List FSTree → List FSTree
  | [] => [x]
  | y :: ys => if nameLt x.name y.name then x :: y :: ys else y :: insertByName x ys

/-- The `sortedChildren` list: children sorted by name. -/
def sortChildren (children : List FSTree) : List FSTree :=
  children.foldr insertByName []

/-- Sector count of a node: for files the `FileNode` constructor formula,
for directories the `CalcDirSize` result over the name-sorted children. -/
def FSTree.numSectors : FSTree → Nat
  | .file _ _ _ isForm2 content => fileNumSectors isForm2 content.length
  | .dir _ _ _ _ children => calcDirNumSectors ((sortChildren children).map FSTree.name)

/-! ### Directory record size arguments (`MakeDirectories::visit(DirNode &)`) -/

/-- The `size` argument passed to `iso9660_dir_add_entry_su` for a child
node: initialized to `node->numSectors * ISO_BLOCKSIZE` and overridden
with the real byte size `file->size` only for Form-1 files. -/
def makeDirEntrySizeArg (node : FSTree) : Nat :=
  let size := node.numSectors * ISO_BLOCKSIZE
  match node with
  | .file _ _ _ isForm2 content => if isForm2 then size else content.length
  | .dir _ _ _ _ _ => size

/-- The value written by PSXInject into the 4-byte size field of the
located directory record (`to_733(...)` argument, psxinject.cpp lines
294-299): `numSectors * ISO_BLOCKSIZE` for a Form-2 target, the new byte
size for a Form-1 target. -/
def injectSizeField (fileIsForm2 : Bool) (numSectors newSize : Nat) : Nat :=
  if fileIsForm2 then numSectors * ISO_BLOCKSIZE else newSize

/-! ### Fixed layout sectors computed in `main` of PSXBuild -/

/-- The computed `pvdSector` in `main`. -/
def pvdSector : Nat := ISO_PVD_SECTOR

/-- The computed `evdSector` in `main`. -/
def evdSector : Nat := pvdSector + 1

/-- The computed `pathTableStartSector` in `main`. -/
def pathTableStartSector : Nat := evdSector + 1

/-- The constant `numPathTableSectors` in `main` (one sector per table copy). -/
def numPathTableSectors : Nat := 1

/-- The computed `rootDirStartSector` in `main` (two table types, two copies each). -/
def rootDirStartSector : Nat := pathTableStartSector + numPathTableSectors * 4

/-! ### Path table size check and the four table copies -/

/-- Which of the two parallel path tables a sector write carries. -/
inductive PathTableKind where
  | lsbFirst
  | msbFirst
deriving DecidableEq

/-- One path-table sector write (`_vcd_make_mode2` call in `main`):
the target LBN, which table buffer is framed, and the submode flags. -/
structure PathTableWrite where
  lbn : Nat
  kind : PathTableKind
  sm : Nat
deriving DecidableEq

/-- The path-table phase of `main`: the fatal size check
`if (pathTables.size() > ISO_BLOCKSIZE) throw ...` followed by the four
`_vcd_make_mode2` + `image.write` pairs for the L table (twice) and the M
table (twice). -/
def writePathTables (ptSize : Nat) : Except String (List PathTableWrite) :=
  if ptSize > ISO_BLOCKSIZE then
    Except.error "The path table is larger than one sector. This is currently not supported."
  else
    Except.ok
      [⟨pathTableStartSector + numPathTableSectors * 0, PathTableKind.lsbFirst, SM_DATA ||| SM_EOF ||| SM_EOR⟩,
       ⟨pathTableStartSector + numPathTableSectors * 1, PathTableKind.lsbFirst, SM_DATA ||| SM_EOF ||| SM_EOR⟩,
       ⟨pathTableStartSector + numPathTableSectors * 2, PathTableKind.msbFirst, SM_DATA ||| SM_EOF ||| SM_EOR⟩,
       ⟨pathTableStartSector + numPathTableSectors * 3, PathTableKind.msbFirst, SM_DATA ||| SM_EOF ||| SM_EOR⟩]

/-! ### Raw Mode-2 sector writes (`_vcd_make_mode2` call sites) -/

/-- Arguments of one `_vcd_make_mode2` framing call followed by an image
write: the logical payload bytes handed to the codec, the target LBN, and
the four subheader bytes (file number, channel number, submode, coding
information). -/
structure Mode2Args where
  data : List Nat
  lbn : Nat
  fn : Nat
  cn : Nat
  sm : Nat
  ci : Nat
deriving DecidableEq

/-- One block of a file as read by the sector loops: `memset(data, 0,
blockSize)` followed by a sequential `read` of `blockSize` bytes, so block
`sector` holds the file bytes starting at `sector * blockSize`, zero-padded
past the end of the file. -/
def readBlock (content : List Nat) (blockSize sector : Nat) : List Nat :=
  (List.range blockSize).map (fun i => content.getD (sector * blockSize + i) 0)

/-- An empty gap sector as emitted by `WriteData::writeGap`:
`_vcd_make_mode2(buffer, emptySector, currentSector, 0, 0, SM_FORM2, 0)`
with `emptySector` a buffer of `M2F2_SECTOR_SIZE` zero bytes. -/
def gapSector (lbn : Nat) : Mode2Args :=
  ⟨List.replicate M2F2_SECTOR_SIZE 0, lbn, 0, 0, SM_FORM2, 0⟩

/-- The submode computed for a data sector of an extent:
`uint8_t subMode = SM_DATA; if (sector == numSectors - 1) subMode |=
(SM_EOF | SM_EOR);` (identical pattern in `WriteData::visit(FileNode &)`,
`WriteData::visit(DirNode &)` and the PSXInject write loop). -/
def extentSubMode (sector numSectors : Nat) : Nat :=
  if sector = numSectors - 1 then SM_DATA ||| (SM_EOF ||| SM_EOR) else SM_DATA

/-! ### PSXInject (psxinject.cpp main program, after the stat phase) -/

/-- Inputs of the injection phase, as established before the checks:
whether the first track makes the image a raw Mode-2 image, whether the
target file's XA attributes mark it Form-2, the target's extent LSN and
reserved sector count from the ISO 9660 stat, and the replacement file's
bytes. -/
structure InjectInput where
  imageIsMode2 : Bool
  fileIsForm2 : Bool
  extent : Nat
  maxSectors : Nat
  newContent : List Nat
deriving DecidableEq

/-- The fatal errors the injection phase can raise before writing. -/
inductive InjectError where
  | notMode2Image
  | sizeNotMultiple
  | capacity (required available : Nat)
deriving DecidableEq

/-- Number of sectors required by the replacement file, as computed in
psxinject.cpp: rounded-up quotient by the target's block size, with empty
files forced to one sector. -/
def injectNumSectors (fileIsForm2 : Bool) (newSize : Nat) : Nat :=
  let blockSize := fileBlockSize fileIsForm2
  let numSectors := (newSize + blockSize - 1) / blockSize
  if numSectors = 0 then 1 else numSectors

/-- One write performed by the injection loop: either a raw framed Mode-2
sector (for a BIN/Mode-2 image) or a plain 2048-byte block (for an ISO
image), at the given byte offset in the image file. -/
inductive InjectWrite where
  | raw (offset : Nat) (args : Mode2Args)
  | plain (offset : Nat) (data : List Nat)
deriving DecidableEq

/-- Iteration `sector` of the PSXInject write loop: read one block of the
replacement file, seek to `(extent + sector) * outputBlockSize`, and either
frame it with `_vcd_make_mode2` (taking the subheader verbatim from the
block's first four bytes for a Form-2 file) or write the 2048 bytes
directly. -/
def injectLoopWrite (inp : InjectInput) (numSectors sector : Nat) : InjectWrite :=
  let blockSize := fileBlockSize inp.fileIsForm2
  let data := readBlock inp.newContent blockSize sector
  let outputBlockSize := if inp.imageIsMode2 then CDIO_CD_FRAMESIZE_RAW else ISO_BLOCKSIZE
  let offset := (inp.extent + sector) * outputBlockSize
  if inp.imageIsMode2 then
    if inp.fileIsForm2 then
      InjectWrite.raw offset
        ⟨(data.drop CDIO_CD_SUBHEADER_SIZE).take M2F2_SECTOR_SIZE, inp.extent + sector,
         data.getD 0 0, data.getD 1 0, data.getD 2 0, data.getD 3 0⟩
    else
      InjectWrite.raw offset ⟨data, inp.extent + sector, 0, 0, extentSubMode sector numSectors, 0⟩
  else
    InjectWrite.plain offset data

/-- The injection phase of psxinject.cpp `main` after the target has been
located: Form-2 preconditions (raw Mode-2 image, replacement size a
multiple of the raw block size), required sector count, capacity check
against the reserved extent, then the sector write loop.  All checks
happen before the image is reopened for writing, so an error implies no
write at all is performed on the image. -/
def injectRun (inp : InjectInput) : Except InjectError (List InjectWrite) :=
  let newSize := inp.newContent.length
  let blockSize := fileBlockSize inp.fileIsForm2
  if inp.fileIsForm2 && !inp.imageIsMode2 then
    Except.error InjectError.notMode2Image
  else if inp.fileIsForm2 && newSize % blockSize != 0 then
    Except.error InjectError.sizeNotMultiple
  else
    let numSectors := injectNumSectors inp.fileIsForm2 newSize
    if numSectors > inp.maxSectors then
      Except.error (InjectError.capacity numSectors inp.maxSectors)
    else
      Except.ok ((List.range numSectors).map (injectLoopWrite inp numSectors))

/-- The sector writes performed on the image by an injection run (none
when the run fails with an error). -/
def injectWrites (inp : InjectInput) : List InjectWrite :=
  match injectRun inp with
  | Except.ok ws => ws
  | Except.error _ => []

/-! ### Pre-order traversal (`FSNode::traverse`)

`FSNode::traverse` accepts the visitor on the node itself and then
recurses over `children` in declaration order; threading a stateful
visitor through it is exactly a left fold over this pre-order node list.
Both the `AllocSectors` and the `WriteData` pass of `main` use this
traversal (the source notes they "must use the same traversal order"). -/

/-- The per-node information consumed by the allocation and write passes. -/
inductive NodePayload where
  | file (isForm2 : Bool) (content : List Nat)
  | dir (data : List Nat)
deriving DecidableEq

/-- A node as seen by the stateful passes: host path (used in the
allocation warning), requested start sector, extent size in sectors, and
the payload written for it. -/
structure NodeInfo where
  path : String
  requestedStartSector : Nat
  numSectors : Nat
  payload : NodePayload
deriving DecidableEq

/-- Default `NodeInfo` used with `List.getD`. -/
def defaultNode : NodeInfo := ⟨"", 0, 0, NodePayload.dir []⟩

/-- The pass-relevant information of a single node. -/
def FSTree.nodeInfo : FSTree → NodeInfo
  | .file _ path req isForm2 content =>
      ⟨path, req, fileNumSectors isForm2 content.length, NodePayload.file isForm2 content⟩
  | .dir _ path req data children =>
      ⟨path, req, calcDirNumSectors ((sortChildren children).map FSTree.name), NodePayload.dir data⟩

mutual

/-- Pre-order, declaration-order node sequence of `FSNode::traverse`. -/
def FSTree.preorder : FSTree → List NodeInfo
  | .file n p r f c => [(FSTree.file n p r f c).nodeInfo]
  | .dir n p r d cs => (FSTree.dir n p r d cs).nodeInfo :: preorderList cs

/-- Pre-order sequence of a child list, in declaration order. -/
def preorderList : List FSTree → List NodeInfo
  | [] => []
  | t :: ts => t.preorder ++ preorderList ts

end

/-! ### Sector allocation (`AllocSectors::visitNode`) -/

/-- The warning printed to `cerr` when a requested start sector would
overlap already-placed data: it names the node's path, the sector the
node will actually start at, and the ignored requested sector. -/
structure AllocWarning where
  path : String
  usedSector : Nat
  requestedSector : Nat
deriving DecidableEq

/-- The result of one `AllocSectors::visitNode` call for one node. -/
structure AllocatedNode where
  info : NodeInfo
  firstSector : Nat
  warning : Option AllocWarning
deriving DecidableEq

/-- Default `AllocatedNode` used with `List.getD`. -/
def defaultAllocated : AllocatedNode := ⟨defaultNode, 0, none⟩

/-- Model of `AllocSectors::visitNode`: a nonzero requested start sector below the
cursor is ignored with a warning (the visit still succeeds; nothing is
thrown), a nonzero request at or above the cursor is honored exactly, no
request allocates contiguously at the cursor; in every case the cursor
advances to `firstSector + numSectors`. -/
def allocVisitNode (currentSector : Nat) (node : NodeInfo) : AllocatedNode × Nat :=
  let (firstSector, warning) :=
    if node.requestedStartSector ≠ 0 then
      if node.requestedStartSector < currentSector then
        (currentSector, some (AllocWarning.mk node.path currentSector node.requestedStartSector))
      else
        (node.requestedStartSector, none)
    else
      (currentSector, none)
  (⟨node, firstSector, warning⟩, firstSector + node.numSectors)

/-- The full allocation pass: `AllocSectors` threaded through the
pre-order node sequence, returning the per-node results and the final
cursor (`AllocSectors::getCurrentSector`, the volume size in `main`). -/
def allocSectors : Nat → List NodeInfo → List AllocatedNode × Nat
  | currentSector, [] => ([], currentSector)
  | currentSector, node :: rest =>
      let p := allocVisitNode currentSector node
      let r := allocSectors p.2 rest
      (p.1 :: r.1, r.2)

/-- The allocation cursor just before the `i`-th node of the sequence is
visited. -/
def allocCursorBefore (startSector : Nat) (nodes : List NodeInfo) (i : Nat) : Nat :=
  (allocSectors startSector (nodes.take i)).2

/-! ### Writing the extents (`WriteData`) -/

/-- Model of `WriteData::writeGap`: empty Form-2 sectors at consecutive LBNs from
the current sector up to (excluding) the target sector; nothing when the
cursor is already at or past the target. -/
def writeGapRun (currentSector target : Nat) : List Mode2Args :=
  (List.range (target - currentSector)).map (fun i => gapSector (currentSector + i))

/-- The data sector emitted for one block of a node's extent.  A Form-1
file block and a directory block are framed with subheader
`(0, 0, subMode, 0)`; a Form-2 file block is framed with its payload
starting after the 8 embedded subheader bytes and with the four subheader
bytes taken verbatim from the front of the block
(`_vcd_make_mode2(buffer, data + CDIO_CD_SUBHEADER_SIZE, currentSector,
data[0], data[1], data[2], data[3])`). -/
def nodeDataSector (payload : NodePayload) (sector lbn numSectors : Nat) : Mode2Args :=
  match payload with
  | NodePayload.file isForm2 content =>
      let data := readBlock content (fileBlockSize isForm2) sector
      if isForm2 then
        ⟨(data.drop CDIO_CD_SUBHEADER_SIZE).take M2F2_SECTOR_SIZE, lbn,
         data.getD 0 0, data.getD 1 0, data.getD 2 0, data.getD 3 0⟩
      else
        ⟨data, lbn, 0, 0, extentSubMode sector numSectors, 0⟩
  | NodePayload.dir data =>
      ⟨(data.drop (sector * ISO_BLOCKSIZE)).take ISO_BLOCKSIZE, lbn, 0, 0,
       extentSubMode sector numSectors, 0⟩

/-- One `WriteData` visit: write the gap up to the node's allocated first
sector, then one data sector per block at consecutive LBNs from the
(possibly advanced) cursor; returns the gap sectors, the data sectors and
the new cursor. -/
def writeDataVisit (currentSector : Nat) (a : AllocatedNode) :
    (List Mode2Args × List Mode2Args) × Nat :=
  let gap := writeGapRun currentSector a.firstSector
  let cur1 := max currentSector a.firstSector
  let dataSecs := (List.range a.info.numSectors).map
      (fun sector => nodeDataSector a.info.payload sector (cur1 + sector) a.info.numSectors)
  ((gap, dataSecs), cur1 + a.info.numSectors)

/-- The full `WriteData` pass over the allocated pre-order node sequence,
returning the per-node (gap sectors, data sectors) pairs and the final
write cursor. -/
def writeData : Nat → List AllocatedNode → List (List Mode2Args × List Mode2Args) × Nat
  | currentSector, [] => ([], currentSector)
  | currentSector, a :: rest =>
      let p := writeDataVisit currentSector a
      let r := writeData p.2 rest
      (p.1 :: r.1, r.2)

/-! ### Reference variants of the directory size computation (claim C4)

The claim describes the padding rule as triggering when a record "would
straddle a logical-block boundary".  `calcDirStepClaim` renders that
wording literally (padding exactly when the record, spanning
`[size, size + recordSize)`, would cross a block boundary), while
`calcDirStepAmended` renders the corrected rule (padding when the record
would cross a boundary or end exactly on one, which is what the source's
quotient comparison tests). -/

/-- The child-loop step as the claim's words describe it: padding exactly
when the record would straddle (cross) a block boundary. -/
def calcDirStepClaim (size namelen : Nat) : Nat :=
  let recordSize := iso9660DirCalcRecordSize namelen
  if size / ISO_BLOCKSIZE ≠ (size + recordSize - 1) / ISO_BLOCKSIZE then
    size + (ISO_BLOCKSIZE - size % ISO_BLOCKSIZE) % ISO_BLOCKSIZE + recordSize
  else size + recordSize

/-- The child loop under the claim's literal padding rule. -/
def calcDirSizeAuxClaim (size : Nat) : List String → Nat
  | [] => size
  | name :: rest => calcDirSizeAuxClaim (calcDirStepClaim size name.length) rest

/-- Directory byte size under the claim's literal padding rule. -/
def calcDirSizeBytesClaim (sortedNames : List String) : Nat :=
  calcDirSizeAuxClaim (iso9660DirCalcRecordSize 1 + iso9660DirCalcRecordSize 1) sortedNames

/-- Directory sector count under the claim's literal padding rule. -/
def calcDirNumSectorsClaim (sortedNames : List String) : Nat :=
  (calcDirSizeBytesClaim sortedNames + ISO_BLOCKSIZE - 1) / ISO_BLOCKSIZE

/-- The child-loop step as the amended claim describes it: padding by the
bytes remaining in the current block exactly when the record would cross a
block boundary or end exactly on one. -/
def calcDirStepAmended (size namelen : Nat) : Nat :=
  let recordSize := iso9660DirCalcRecordSize namelen
  if ISO_BLOCKSIZE ≤ size % ISO_BLOCKSIZE + recordSize then
    size + (ISO_BLOCKSIZE - size % ISO_BLOCKSIZE) % ISO_BLOCKSIZE + recordSize
  else size + recordSize

/-- The child loop under the amended padding rule. -/
def calcDirSizeAuxAmended (size : Nat) : List String → Nat
  | [] => size
  | name :: rest => calcDirSizeAuxAmended (calcDirStepAmended size name.length) rest

/-- Directory byte size under the amended padding rule. -/
def calcDirSizeBytesAmended (sortedNames : List String) : Nat :=
  calcDirSizeAuxAmended (iso9660DirCalcRecordSize 1 + iso9660DirCalcRecordSize 1) sortedNames

/-- Byte spans `(start, recordSize)` of the child records laid out by the
`CalcDirSize` loop (after the `.` and `..` records), tracking the same
accumulator as `calcDirSizeAux`. -/
def dirRecordSpansAux (size : Nat) : List String → List (Nat × Nat)
  | [] => []
  | name :: rest =>
      let recordSize := iso9660DirCalcRecordSize name.length
      let pad := if size / ISO_BLOCKSIZE ≠ (size + recordSize) / ISO_BLOCKSIZE
                 then boundaryPad size else 0
      (size + pad, recordSize) :: dirRecordSpansAux (size + pad + recordSize) rest

/-- Byte spans of all records of a directory extent: the `.` and `..`
records at offsets 0 and 48, then one span per child record. -/
def dirRecordSpans (sortedNames : List String) : List (Nat × Nat) :=
  (0, iso9660DirCalcRecordSize 1) ::
    (iso9660DirCalcRecordSize 1, iso9660DirCalcRecordSize 1) ::
    dirRecordSpansAux (iso9660DirCalcRecordSize 1 + iso9660DirCalcRecordSize 1) sortedNames

/-- The sorted child-name list of the counterexample directory for claim
C4: 96 bytes of `.`/`..` records, then records of sizes
48 ("A"), 16 × 50 ("AA".."AP"), 22 × 48 ("B".."W") reach exactly byte
2000, and the final 48-byte record for "X" ends exactly at byte 2048. -/
def cexNames : List String :=
  ["A", "AA", "AB", "AC", "AD", "AE", "AF", "AG", "AH", "AI", "AJ", "AK", "AL", "AM",
   "AN", "AO", "AP", "B", "C", "D", "E", "F", "G", "H", "I", "J", "K", "L", "M", "N",
   "O", "P", "Q", "R", "S", "T", "U", "V", "W", "X"]

/-! ### A concrete example tree for witnesses -/

/-- Example file with no requested start sector. -/
def exFileA : FSTree := FSTree.file "AA.TXT;1" "cat/AA.TXT" 0 false (List.replicate 10 7)

/-- Example Form-2 file requesting start sector 30 (which is past the
cursor when it is visited). -/
def exFileB : FSTree := FSTree.file "BB.XA;1" "cat/BB.XA" 30 true []

/-- Example file requesting start sector 20 (which is below the cursor
when it is visited, so the request is ignored with a warning). -/
def exFileC : FSTree := FSTree.file "CC.TXT;1" "cat/CC.TXT" 20 false []

/-- Example root directory holding the three files. -/
def exTree : FSTree :=
  FSTree.dir "" "cat" 0 (List.replicate 2048 0) [exFileA, exFileB, exFileC]

/-! ### Basic facts about one allocation visit -/

/-- Visit of a node with no requested start sector. -/
theorem allocVisitNode_zero (cur : Nat) (n : NodeInfo) (h : n.requestedStartSector = 0) :
    allocVisitNode cur n = (⟨n, cur, none⟩, cur + n.numSectors) := by
  simp [allocVisitNode, h]

/-- Visit of a node whose requested start sector is honored. -/
theorem allocVisitNode_honor (cur : Nat) (n : NodeInfo) (h : n.requestedStartSector ≠ 0)
    (h2 : ¬ n.requestedStartSector < cur) :
    allocVisitNode cur n =
      (⟨n, n.requestedStartSector, none⟩, n.requestedStartSector + n.numSectors) := by
  simp [allocVisitNode, h, h2]

/-- Visit of a node whose requested start sector is ignored with a warning. -/
theorem allocVisitNode_warn (cur : Nat) (n : NodeInfo) (h : n.requestedStartSector ≠ 0)
    (h2 : n.requestedStartSector < cur) :
    allocVisitNode cur n =
      (⟨n, cur, some ⟨n.path, cur, n.requestedStartSector⟩⟩, cur + n.numSectors) := by
  simp [allocVisitNode, h, h2]

/-- The allocated node keeps its input node information. -/
theorem allocVisitNode_info (cur : Nat) (n : NodeInfo) :
    ((allocVisitNode cur n).1).info = n := by
  by_cases h : n.requestedStartSector = 0
  · rw [allocVisitNode_zero cur n h]
  · by_cases h2 : n.requestedStartSector < cur
    · rw [allocVisitNode_warn cur n h h2]
    · rw [allocVisitNode_honor cur n h h2]

/-- The allocated first sector is never below the incoming cursor. -/
theorem allocVisitNode_le (cur : Nat) (n : NodeInfo) :
    cur ≤ ((allocVisitNode cur n).1).firstSector := by
  by_cases h : n.requestedStartSector = 0
  · rw [allocVisitNode_zero cur n h]
  · by_cases h2 : n.requestedStartSector < cur
    · rw [allocVisitNode_warn cur n h h2]
    · rw [allocVisitNode_honor cur n h h2]
      exact Nat.le_of_not_lt h2

/-- After every visit the cursor is `firstSector + numSectors`. -/
theorem allocVisitNode_snd (cur : Nat) (n : NodeInfo) :
    (allocVisitNode cur n).2 = ((allocVisitNode cur n).1).firstSector + n.numSectors := by
  by_cases h : n.requestedStartSector = 0
  · rw [allocVisitNode_zero cur n h]
  · by_cases h2 : n.requestedStartSector < cur
    · rw [allocVisitNode_warn cur n h h2]
    · rw [allocVisitNode_honor cur n h h2]

/-! ### Facts about the whole allocation pass -/

/-- The allocation pass produces one result per node. -/
theorem allocSectors_length (ns : List NodeInfo) :
    ∀ cur, ((allocSectors cur ns).1).length = ns.length := by
  induction ns with
  | nil => intro cur; rfl
  | cons n rest ih => intro cur; simp [allocSectors, ih]

/-- The `i`-th allocation result is the visit of the `i`-th node at the
cursor reached just before it. -/
theorem allocSectors_getD (ns : List NodeInfo) :
    ∀ cur i, i < ns.length →
      ((allocSectors cur ns).1).getD i defaultAllocated =
        (allocVisitNode (allocCursorBefore cur ns i) (ns.getD i defaultNode)).1 := by
  induction ns with
  | nil => intro cur i hi; simp at hi
  | cons n rest ih =>
      intro cur i hi
      cases i with
      | zero => simp [allocSectors, allocCursorBefore]
      | succ j =>
          have hj : j < rest.length := by simpa using hi
          have : allocCursorBefore cur (n :: rest) (j + 1) =
              allocCursorBefore (allocVisitNode cur n).2 rest j := by
            simp [allocCursorBefore, List.take_succ_cons, allocSectors]
          simp only [allocSectors, List.getD_cons_succ, this]
          exact ih (allocVisitNode cur n).2 j hj

/-- The cursor before node `i + 1` is the first sector of node `i` plus
its sector count. -/
theorem allocCursorBefore_succ (ns : List NodeInfo) :
    ∀ cur i, i < ns.length →
      allocCursorBefore cur ns (i + 1) =
        (((allocSectors cur ns).1).getD i defaultAllocated).firstSector +
          (ns.getD i defaultNode).numSectors := by
  intro cur i hi
  rw [allocSectors_getD ns cur i hi]
  have h1 : (allocVisitNode (allocCursorBefore cur ns i) (ns.getD i defaultNode)).2 =
      ((allocVisitNode (allocCursorBefore cur ns i) (ns.getD i defaultNode)).1).firstSector +
        (ns.getD i defaultNode).numSectors :=
    allocVisitNode_snd _ _
  rw [← h1]
  clear h1
  induction ns generalizing cur i with
  | nil => simp at hi
  | cons n rest ih =>
      cases i with
      | zero => simp [allocCursorBefore, allocSectors]
      | succ j =>
          have hj : j < rest.length := by simpa using hi
          have e1 : allocCursorBefore cur (n :: rest) (j + 1 + 1) =
              allocCursorBefore (allocVisitNode cur n).2 rest (j + 1) := by
            simp [allocCursorBefore, List.take_succ_cons, allocSectors]
          have e2 : allocCursorBefore cur (n :: rest) (j + 1) =
              allocCursorBefore (allocVisitNode cur n).2 rest j := by
            simp [allocCursorBefore, List.take_succ_cons, allocSectors]
          rw [e1, e2, List.getD_cons_succ]
          exact ih (allocVisitNode cur n).2 j hj

/-- Every allocated first sector is at or past the starting cursor, and
the allocated extents are emitted in strictly advancing position: each
node's extent ends at or before the next one's first sector. -/
theorem allocSectors_ordered (ns : List NodeInfo) :
    ∀ cur, (∀ a ∈ (allocSectors cur ns).1, cur ≤ a.firstSector) ∧
      List.Pairwise (fun a b : AllocatedNode =>
        a.firstSector + a.info.numSectors ≤ b.firstSector) (allocSectors cur ns).1 := by
  induction ns with
  | nil => intro cur; simp [allocSectors]
  | cons n rest ih =>
      intro cur
      have hsnd := allocVisitNode_snd cur n
      have hinfo := allocVisitNode_info cur n
      have hle := allocVisitNode_le cur n
      obtain ⟨ihmem, ihpw⟩ := ih (allocVisitNode cur n).2
      constructor
      · intro a ha
        simp only [allocSectors, List.mem_cons] at ha
        rcases ha with rfl | ha
        · exact hle
        · have := ihmem a ha
          omega
      · simp only [allocSectors]
        refine List.Pairwise.cons ?_ ihpw
        intro b hb
        have hmem := ihmem b hb
        rw [hsnd] at hmem
        rw [hinfo]
        exact hmem

/-! ### Claim C1: the allocation policy for each visited node -/

/-- Claim C1: for every node visited by the sector allocator in pre-order
declaration order, with `C` the allocator's cursor before the visit: a
nonzero `requestedStartSector ≥ C` is honored exactly (and no warning is
emitted); a nonzero `requestedStartSector < C` is ignored, `firstSector`
is set to `C`, and a non-fatal warning carrying the node's path and the
sector actually used is emitted; a zero request allocates at `C` with no
warning; and in every case the cursor advances to
`firstSector + numSectors`. -/
theorem alloc_visit_policy (t : FSTree) (startSector i : Nat)
    (hi : i < t.preorder.length) :
    ((t.preorder.getD i defaultNode).requestedStartSector ≠ 0 →
      allocCursorBefore startSector t.preorder i ≤
        (t.preorder.getD i defaultNode).requestedStartSector →
      (((allocSectors startSector t.preorder).1).getD i defaultAllocated).firstSector =
          (t.preorder.getD i defaultNode).requestedStartSector ∧
        (((allocSectors startSector t.preorder).1).getD i defaultAllocated).warning = none) ∧
    ((t.preorder.getD i defaultNode).requestedStartSector ≠ 0 →
      (t.preorder.getD i defaultNode).requestedStartSector <
        allocCursorBefore startSector t.preorder i →
      (((allocSectors startSector t.preorder).1).getD i defaultAllocated).firstSector =
          allocCursorBefore startSector t.preorder i ∧
        (((allocSectors startSector t.preorder).1).getD i defaultAllocated).warning =
          some ⟨(t.preorder.getD i defaultNode).path,
                allocCursorBefore startSector t.preorder i,
                (t.preorder.getD i defaultNode).requestedStartSector⟩) ∧
    ((t.preorder.getD i defaultNode).requestedStartSector = 0 →
      (((allocSectors startSector t.preorder).1).getD i defaultAllocated).firstSector =
          allocCursorBefore startSector t.preorder i ∧
        (((allocSectors startSector t.preorder).1).getD i defaultAllocated).warning = none) ∧
    allocCursorBefore startSector t.preorder (i + 1) =
      (((allocSectors startSector t.preorder).1).getD i defaultAllocated).firstSector +
        (t.preorder.getD i defaultNode).numSectors := by
  rw [allocSectors_getD t.preorder startSector i hi]
  refine ⟨?_, ?_, ?_, ?_⟩
  · intro h1 h2
    rw [allocVisitNode_honor _ _ h1 (Nat.not_lt_of_le h2)]
    exact ⟨rfl, rfl⟩
  · intro h1 h2
    rw [allocVisitNode_warn _ _ h1 h2]
    exact ⟨rfl, rfl⟩
  · intro h1
    rw [allocVisitNode_zero _ _ h1]
    exact ⟨rfl, rfl⟩
  · rw [← allocSectors_getD t.preorder startSector i hi]
    exact allocCursorBefore_succ t.preorder startSector i hi

/-- Witness for claim C1 over `exTree` allocated from `rootDirStartSector`:
node 2 has its request for sector 30 honored exactly, and node 3 has its
request for sector 20 ignored in favor of the cursor value 31 with the
corresponding warning. -/
theorem alloc_visit_policy_witness :
    (((allocSectors 22 exTree.preorder).1).getD 2 defaultAllocated).firstSector = 30 ∧
      (((allocSectors 22 exTree.preorder).1).getD 3 defaultAllocated).warning =
        some ⟨"cat/CC.TXT", 31, 20⟩ := by
  constructor
  · exact ((alloc_visit_policy exTree 22 2 (by decide)).1 (by decide) (by decide)).1
  · exact ((alloc_visit_policy exTree 22 3 (by decide)).2.1 (by decide) (by decide)).2

/-! ### Claim C3: allocated extents never overlap -/

/-- Claim C3: for every filesystem tree and start cursor, after the
allocation pass the sector ranges `[firstSector, firstSector + numSectors)`
of two distinct nodes are disjoint, whatever requested start sectors were
supplied: no sector `s` lies in both. -/
theorem alloc_extents_disjoint (t : FSTree) (startSector i j s : Nat)
    (hi : i < t.preorder.length) (hj : j < t.preorder.length) (hij : i ≠ j)
    (hs : (((allocSectors startSector t.preorder).1).getD i defaultAllocated).firstSector ≤ s ∧
          s < (((allocSectors startSector t.preorder).1).getD i defaultAllocated).firstSector +
              (((allocSectors startSector t.preorder).1).getD i defaultAllocated).info.numSectors) :
    ¬ ((((allocSectors startSector t.preorder).1).getD j defaultAllocated).firstSector ≤ s ∧
       s < (((allocSectors startSector t.preorder).1).getD j defaultAllocated).firstSector +
           (((allocSectors startSector t.preorder).1).getD j defaultAllocated).info.numSectors) := by
  intro hs2
  have hlen := allocSectors_length t.preorder startSector
  have hi' : i < ((allocSectors startSector t.preorder).1).length := by omega
  have hj' : j < ((allocSectors startSector t.preorder).1).length := by omega
  have hpw := (allocSectors_ordered t.preorder startSector).2
  rw [List.pairwise_iff_getElem] at hpw
  have hgi : ((allocSectors startSector t.preorder).1).getD i defaultAllocated =
      ((allocSectors startSector t.preorder).1)[i] := List.getD_eq_getElem _ _ hi'
  have hgj : ((allocSectors startSector t.preorder).1).getD j defaultAllocated =
      ((allocSectors startSector t.preorder).1)[j] := List.getD_eq_getElem _ _ hj'
  rw [hgi] at hs
  rw [hgj] at hs2
  rcases Nat.lt_or_ge i j with hlt | hge
  · have := hpw i j hi' hj' hlt
    omega
  · have hlt : j < i := by omega
    have := hpw j i hj' hi' hlt
    omega

/-- Witness for claim C3: in the example tree the extents of nodes 0 and 1
are disjoint; sector 22 lies in node 0's extent and hence not in node 1's. -/
theorem alloc_extents_disjoint_witness :
    ¬ ((((allocSectors 22 exTree.preorder).1).getD 1 defaultAllocated).firstSector ≤ 22 ∧
       22 < (((allocSectors 22 exTree.preorder).1).getD 1 defaultAllocated).firstSector +
           (((allocSectors 22 exTree.preorder).1).getD 1 defaultAllocated).info.numSectors) :=
  alloc_extents_disjoint exTree 22 0 1 22 (by decide) (by decide) (by decide)
    (by refine ⟨?_, ?_⟩ <;> decide)

/-! ### Synchronization of the write pass with the allocation pass -/

/-- Splitting a cursor-before computation at the head of the list. -/
theorem allocCursorBefore_cons_succ (cur : Nat) (n : NodeInfo) (rest : List NodeInfo) (j : Nat) :
    allocCursorBefore cur (n :: rest) (j + 1) =
      allocCursorBefore (allocVisitNode cur n).2 rest j := by
  simp [allocCursorBefore, List.take_succ_cons, allocSectors]

/-- The allocation cursor never moves backwards over a whole pass. -/
theorem allocSectors_cursor_le (ns : List NodeInfo) :
    ∀ cur, cur ≤ (allocSectors cur ns).2 := by
  induction ns with
  | nil => intro cur; exact Nat.le_refl cur
  | cons n rest ih =>
      intro cur
      have h1 := allocVisitNode_le cur n
      have h2 := allocVisitNode_snd cur n
      have h3 := ih (allocVisitNode cur n).2
      simp only [allocSectors]
      omega

/-- Every data sector is framed at the LBN it was given. -/
theorem nodeDataSector_lbn (p : NodePayload) (sector lbn numSectors : Nat) :
    (nodeDataSector p sector lbn numSectors).lbn = lbn := by
  cases p with
  | file isForm2 content => cases isForm2 <;> rfl
  | dir data => rfl

/-- Gluing the three contiguous LBN ranges of one visit step. -/
theorem range'_glue (cur f nn e : Nat) (h1 : cur ≤ f) (h2 : f + nn ≤ e) :
    List.range' cur (f - cur) ++ List.range' f nn ++ List.range' (f + nn) (e - (f + nn)) =
      List.range' cur (e - cur) := by
  have key1 := List.range'_append_1 cur (f - cur) nn
  rw [Nat.add_sub_cancel' h1] at key1
  have key2 := List.range'_append_1 cur (nn + (f - cur)) (e - (f + nn))
  have h3 : cur + (nn + (f - cur)) = f + nn := by omega
  rw [h3] at key2
  have h4 : e - (f + nn) + (nn + (f - cur)) = e - cur := by omega
  rw [h4] at key2
  rw [key1, key2]

/-- A write visit whose incoming cursor is at or before the node's
allocated first sector: the gap sectors cover exactly the LBNs from the
cursor up to `firstSector`, the data sectors sit exactly at
`[firstSector, firstSector + numSectors)`, and the cursor leaves at
`firstSector + numSectors`. -/
theorem writeDataVisit_sync (cur : Nat) (a : AllocatedNode) (h : cur ≤ a.firstSector) :
    (writeDataVisit cur a).2 = a.firstSector + a.info.numSectors ∧
    ((writeDataVisit cur a).1.1).map Mode2Args.lbn =
      List.range' cur (a.firstSector - cur) ∧
    ((writeDataVisit cur a).1.2).map Mode2Args.lbn =
      List.range' a.firstSector a.info.numSectors := by
  have hmax : max cur a.firstSector = a.firstSector := Nat.max_eq_right h
  refine ⟨?_, ?_, ?_⟩
  · simp [writeDataVisit, hmax]
  · simp only [writeDataVisit, writeGapRun, List.map_map]
    rw [List.range'_eq_map_range]
    rfl
  · simp only [writeDataVisit, hmax, List.map_map]
    rw [List.range'_eq_map_range]
    refine List.map_congr_left ?_
    intro x _
    simp [Function.comp, nodeDataSector_lbn]

/-- Gap sectors produced by `writeGap` are empty Form-2 sectors at their
own LBN. -/
theorem writeGapRun_all_zero (cur target : Nat) :
    ∀ g ∈ writeGapRun cur target, g = gapSector g.lbn := by
  intro g hg
  simp only [writeGapRun, List.mem_map, List.mem_range] at hg
  obtain ⟨i, _, rfl⟩ := hg
  rfl

/-- The write pass driven by the allocation results of the same starting
cursor finishes at the allocation end cursor, and the LBNs of all emitted
sectors (gaps and data in visit order) are exactly the contiguous range
from the start cursor to the end cursor. -/
theorem writeData_alloc_sync (ns : List NodeInfo) :
    ∀ cur, (writeData cur (allocSectors cur ns).1).2 = (allocSectors cur ns).2 ∧
      ((((writeData cur (allocSectors cur ns).1).1.map (fun p => p.1 ++ p.2)).flatten).map
          Mode2Args.lbn) =
        List.range' cur ((allocSectors cur ns).2 - cur) := by
  induction ns with
  | nil => intro cur; simp [allocSectors, writeData]
  | cons n rest ih =>
      intro cur
      have hle := allocVisitNode_le cur n
      have hsnd := allocVisitNode_snd cur n
      have hsync := writeDataVisit_sync cur (allocVisitNode cur n).1 hle
      have hvis2 : (writeDataVisit cur (allocVisitNode cur n).1).2 = (allocVisitNode cur n).2 := by
        rw [hsync.1, hsnd, allocVisitNode_info]
      have hcur2 := allocSectors_cursor_le rest (allocVisitNode cur n).2
      obtain ⟨ih1, ih2⟩ := ih (allocVisitNode cur n).2
      constructor
      · simp only [allocSectors, writeData, hvis2]
        exact ih1
      · simp only [allocSectors, writeData, hvis2, List.map_cons, List.flatten_cons,
          List.map_append, ih2]
        rw [hsync.2.1, hsync.2.2]
        have hc2 : (allocVisitNode cur n).2 =
            (allocVisitNode cur n).1.firstSector + (allocVisitNode cur n).1.info.numSectors := by
          rw [hsnd, allocVisitNode_info]
        rw [hc2] at hcur2 ⊢
        exact range'_glue cur (allocVisitNode cur n).1.firstSector
          (allocVisitNode cur n).1.info.numSectors _ hle hcur2

/-- The `i`-th (gap, data) pair of the write pass is the write visit of
the `i`-th allocated node at the shared per-node cursor. -/
theorem writeData_getD (ns : List NodeInfo) :
    ∀ cur i, i < ns.length →
      (writeData cur (allocSectors cur ns).1).1.getD i ([], []) =
        (writeDataVisit (allocCursorBefore cur ns i)
          ((allocSectors cur ns).1.getD i defaultAllocated)).1 := by
  induction ns with
  | nil => intro cur i hi; simp at hi
  | cons n rest ih =>
      intro cur i hi
      cases i with
      | zero =>
          simp [allocSectors, writeData, allocCursorBefore]
      | succ j =>
          have hj : j < rest.length := by simpa using hi
          have hle := allocVisitNode_le cur n
          have hvis2 : (writeDataVisit cur (allocVisitNode cur n).1).2 =
              (allocVisitNode cur n).2 := by
            rw [(writeDataVisit_sync cur (allocVisitNode cur n).1 hle).1,
              allocVisitNode_snd, allocVisitNode_info]
          simp only [allocSectors, writeData, List.getD_cons_succ, hvis2,
            allocCursorBefore_cons_succ]
          exact ih (allocVisitNode cur n).2 j hj

/-- The `i`-th allocated node keeps the `i`-th node information. -/
theorem allocSectors_getD_info (ns : List NodeInfo) (cur i : Nat) (hi : i < ns.length) :
    ((allocSectors cur ns).1.getD i defaultAllocated).info = ns.getD i defaultNode := by
  rw [allocSectors_getD ns cur i hi, allocVisitNode_info]

/-- The cursor before node `i` never exceeds its allocated first sector. -/
theorem allocCursorBefore_le_firstSector (ns : List NodeInfo) (cur i : Nat)
    (hi : i < ns.length) :
    allocCursorBefore cur ns i ≤
      ((allocSectors cur ns).1.getD i defaultAllocated).firstSector := by
  rw [allocSectors_getD ns cur i hi]
  exact allocVisitNode_le _ _

/-! ### Claim C2: extent placement and gap filling by the write pass -/

/-- Claim C2: the extent-writing pass, traversing the same pre-order
declaration-order node sequence as the allocation pass and starting at
the same sector, (a) ends at the allocation end cursor with the emitted
LBN sequence covering every sector from the start of the extent region up
to the last allocated sector; (b) for each node, emits the gap sectors
(all of them all-zero Form-2 sectors at their own LBN) needed to advance
the cursor, then the node's data sectors exactly at
`[firstSector, firstSector + numSectors)`; and (c) in particular places a
node whose requested start LBN is at or past the cursor exactly at that
requested LBN. -/
theorem writeData_extent_placement (t : FSTree) (startSector : Nat) :
    ((writeData startSector (allocSectors startSector t.preorder).1).2 =
        (allocSectors startSector t.preorder).2 ∧
      ((((writeData startSector (allocSectors startSector t.preorder).1).1.map
          (fun p => p.1 ++ p.2)).flatten).map Mode2Args.lbn) =
        List.range' startSector
          ((allocSectors startSector t.preorder).2 - startSector)) ∧
    (∀ i, i < t.preorder.length →
      (∀ g ∈ ((writeData startSector (allocSectors startSector t.preorder).1).1.getD i
          ([], [])).1, g = gapSector g.lbn) ∧
      (((writeData startSector (allocSectors startSector t.preorder).1).1.getD i
          ([], [])).2.map Mode2Args.lbn =
        List.range'
          (((allocSectors startSector t.preorder).1.getD i defaultAllocated).firstSector)
          ((t.preorder.getD i defaultNode).numSectors)) ∧
      ((t.preorder.getD i defaultNode).requestedStartSector ≠ 0 →
        allocCursorBefore startSector t.preorder i ≤
          (t.preorder.getD i defaultNode).requestedStartSector →
        ((writeData startSector (allocSectors startSector t.preorder).1).1.getD i
            ([], [])).2.map Mode2Args.lbn =
          List.range' ((t.preorder.getD i defaultNode).requestedStartSector)
            ((t.preorder.getD i defaultNode).numSectors))) := by
  constructor
  · exact writeData_alloc_sync t.preorder startSector
  · intro i hi
    have hgetd := writeData_getD t.preorder startSector i hi
    have hcle := allocCursorBefore_le_firstSector t.preorder startSector i hi
    have hsync := writeDataVisit_sync (allocCursorBefore startSector t.preorder i)
      ((allocSectors startSector t.preorder).1.getD i defaultAllocated) hcle
    refine ⟨?_, ?_, ?_⟩
    · intro g hg
      rw [hgetd] at hg
      exact writeGapRun_all_zero _ _ g hg
    · rw [hgetd, hsync.2.2, allocSectors_getD_info t.preorder startSector i hi]
    · intro h1 h2
      have hfs : ((allocSectors startSector t.preorder).1.getD i defaultAllocated).firstSector =
          (t.preorder.getD i defaultNode).requestedStartSector := by
        rw [allocSectors_getD t.preorder startSector i hi,
          allocVisitNode_honor _ _ h1 (Nat.not_lt_of_le h2)]
      rw [hgetd, hsync.2.2, allocSectors_getD_info t.preorder startSector i hi, hfs]

/-- Witness for claim C2 on the example tree written from sector 22: the
example Form-2 file that requested sector 30 (with the cursor at 24) is
physically placed at LBN 30, and the whole emitted LBN sequence is the
contiguous range 22..31. -/
theorem writeData_extent_placement_witness :
    (((writeData 22 (allocSectors 22 exTree.preorder).1).1.getD 2 ([], [])).2.map
        Mode2Args.lbn = List.range' 30 1) ∧
      ((((writeData 22 (allocSectors 22 exTree.preorder).1).1.map
          (fun p => p.1 ++ p.2)).flatten).map Mode2Args.lbn) = List.range' 22 10 := by
  constructor
  · have h := ((writeData_extent_placement exTree 22).2 2 (by decide)).2.2
      (by decide) (by decide)
    rw [h]
    decide
  · have h := (writeData_extent_placement exTree 22).1.2
    rw [h]
    decide

/-! ### Claim C8: submode flags and Form-2 subheader bytes -/

/-- Element `k` of a map over `List.range n`. -/
theorem getD_map_range {α : Type} (f : Nat → α) (n k : Nat) (d : α) (hk : k < n) :
    ((List.range n).map f).getD k d = f k := by
  have hlen : k < ((List.range n).map f).length := by simpa using hk
  rw [List.getD_eq_getElem _ _ hlen]
  simp

/-- The submode of a data sector has `SM_DATA` set always, and has both
`SM_EOF` and `SM_EOR` set exactly on the last sector of the extent. -/
theorem extentSubMode_testBit (k n : Nat) :
    (extentSubMode k n).testBit 3 = true ∧
      (((extentSubMode k n).testBit 7 = true ∧ (extentSubMode k n).testBit 0 = true) ↔
        k = n - 1) := by
  unfold extentSubMode
  by_cases h : k = n - 1
  · simp only [h, if_pos rfl]
    refine ⟨by decide, ?_⟩
    simp
    decide
  · rw [if_neg h]
    refine ⟨by decide, ?_⟩
    simp [h]
    decide

/-- A byte of a read block is the corresponding byte of the backing file,
zero past the end. -/
theorem readBlock_getD (content : List Nat) (blockSize sector j : Nat) (hj : j < blockSize) :
    (readBlock content blockSize sector).getD j 0 =
      content.getD (sector * blockSize + j) 0 := by
  unfold readBlock
  exact getD_map_range _ _ _ _ hj

/-- Claim C8: in a write visit, every data sector of a Form-1 file extent
and of a directory extent carries submode flag `DATA` (bit 3), with `EOF`
(bit 7) and `EOR` (bit 0) additionally set exactly on the last sector of
the extent; and every data sector of a Form-2 file extent takes its four
subheader bytes verbatim from the first four bytes of the corresponding
2336-byte source block instead of regenerated values. -/
theorem extent_submode_and_subheader (cur fs n k req : Nat) (path : String)
    (content ddata : List Nat) (w : Option AllocWarning) (hk : k < n) :
    ((((writeDataVisit cur ⟨⟨path, req, n, NodePayload.file false content⟩, fs, w⟩).1.2.getD k
          ⟨[], 0, 0, 0, 0, 0⟩).sm.testBit 3 = true) ∧
      ((((writeDataVisit cur ⟨⟨path, req, n, NodePayload.file false content⟩, fs, w⟩).1.2.getD k
            ⟨[], 0, 0, 0, 0, 0⟩).sm.testBit 7 = true ∧
        ((writeDataVisit cur ⟨⟨path, req, n, NodePayload.file false content⟩, fs, w⟩).1.2.getD k
            ⟨[], 0, 0, 0, 0, 0⟩).sm.testBit 0 = true) ↔ k = n - 1)) ∧
    ((((writeDataVisit cur ⟨⟨path, req, n, NodePayload.dir ddata⟩, fs, w⟩).1.2.getD k
          ⟨[], 0, 0, 0, 0, 0⟩).sm.testBit 3 = true) ∧
      ((((writeDataVisit cur ⟨⟨path, req, n, NodePayload.dir ddata⟩, fs, w⟩).1.2.getD k
            ⟨[], 0, 0, 0, 0, 0⟩).sm.testBit 7 = true ∧
        ((writeDataVisit cur ⟨⟨path, req, n, NodePayload.dir ddata⟩, fs, w⟩).1.2.getD k
            ⟨[], 0, 0, 0, 0, 0⟩).sm.testBit 0 = true) ↔ k = n - 1)) ∧
    (((writeDataVisit cur ⟨⟨path, req, n, NodePayload.file true content⟩, fs, w⟩).1.2.getD k
        ⟨[], 0, 0, 0, 0, 0⟩).fn = content.getD (k * M2RAW_SECTOR_SIZE) 0 ∧
      ((writeDataVisit cur ⟨⟨path, req, n, NodePayload.file true content⟩, fs, w⟩).1.2.getD k
        ⟨[], 0, 0, 0, 0, 0⟩).cn = content.getD (k * M2RAW_SECTOR_SIZE + 1) 0 ∧
      ((writeDataVisit cur ⟨⟨path, req, n, NodePayload.file true content⟩, fs, w⟩).1.2.getD k
        ⟨[], 0, 0, 0, 0, 0⟩).sm = content.getD (k * M2RAW_SECTOR_SIZE + 2) 0 ∧
      ((writeDataVisit cur ⟨⟨path, req, n, NodePayload.file true content⟩, fs, w⟩).1.2.getD k
        ⟨[], 0, 0, 0, 0, 0⟩).ci = content.getD (k * M2RAW_SECTOR_SIZE + 3) 0) := by
  have hget1 : ∀ (p : NodePayload),
      (writeDataVisit cur ⟨⟨path, req, n, p⟩, fs, w⟩).1.2.getD k ⟨[], 0, 0, 0, 0, 0⟩ =
        nodeDataSector p k (max cur fs + k) n := by
    intro p
    simp only [writeDataVisit]
    exact getD_map_range _ n k _ hk
  have hbit := extentSubMode_testBit k n
  refine ⟨?_, ?_, ?_⟩
  · rw [hget1 (NodePayload.file false content)]
    exact hbit
  · rw [hget1 (NodePayload.dir ddata)]
    exact hbit
  · rw [hget1 (NodePayload.file true content)]
    have h0 : (0 : Nat) < M2RAW_SECTOR_SIZE := by decide
    have h1 : (1 : Nat) < M2RAW_SECTOR_SIZE := by decide
    have h2 : (2 : Nat) < M2RAW_SECTOR_SIZE := by decide
    have h3 : (3 : Nat) < M2RAW_SECTOR_SIZE := by decide
    refine ⟨?_, ?_, ?_, ?_⟩
    · show (readBlock content (fileBlockSize true) k).getD 0 0 = _
      rw [show fileBlockSize true = M2RAW_SECTOR_SIZE from rfl,
        readBlock_getD content M2RAW_SECTOR_SIZE k 0 h0]
      simp
    · show (readBlock content (fileBlockSize true) k).getD 1 0 = _
      rw [show fileBlockSize true = M2RAW_SECTOR_SIZE from rfl,
        readBlock_getD content M2RAW_SECTOR_SIZE k 1 h1]
    · show (readBlock content (fileBlockSize true) k).getD 2 0 = _
      rw [show fileBlockSize true = M2RAW_SECTOR_SIZE from rfl,
        readBlock_getD content M2RAW_SECTOR_SIZE k 2 h2]
    · show (readBlock content (fileBlockSize true) k).getD 3 0 = _
      rw [show fileBlockSize true = M2RAW_SECTOR_SIZE from rfl,
        readBlock_getD content M2RAW_SECTOR_SIZE k 3 h3]

/-- Witness for claim C8: in a two-sector Form-1 extent, sector 1 (the
last) carries `EOF`, sector 0 does not, and a concrete Form-2 extent
frames the subheader bytes found at the front of its source block. -/
theorem extent_submode_and_subheader_witness :
    (((writeDataVisit 0 ⟨⟨"", 0, 2, NodePayload.file false []⟩, 0, none⟩).1.2.getD 1
        ⟨[], 0, 0, 0, 0, 0⟩).sm.testBit 7 = true) ∧
    (((writeDataVisit 0 ⟨⟨"", 0, 2, NodePayload.file false []⟩, 0, none⟩).1.2.getD 0
        ⟨[], 0, 0, 0, 0, 0⟩).sm.testBit 3 = true) ∧
    (((writeDataVisit 0 ⟨⟨"", 0, 1, NodePayload.file true [9, 8, 7, 6, 5]⟩, 0, none⟩).1.2.getD 0
        ⟨[], 0, 0, 0, 0, 0⟩).sm = 7) := by
  refine ⟨?_, ?_, ?_⟩
  · exact (((extent_submode_and_subheader 0 0 2 1 0 "" [] [] none (by decide)).1).2.mpr
      (by decide)).1
  · exact ((extent_submode_and_subheader 0 0 2 0 0 "" [] [] none (by decide)).1).1
  · have h := ((extent_submode_and_subheader 0 0 1 0 0 "" [9, 8, 7, 6, 5] [] none
      (by decide)).2.2).2.2.1
    rw [h]
    decide

/-! ### Claim C9: file extent sector counts -/

/-- Claim C9: for every file node, `numSectors` is the byte size divided
by the block size rounded up (block size `M2RAW_SECTOR_SIZE = 2336` for
Form-2, `ISO_BLOCKSIZE = 2048` for Form-1), except that a zero-byte file
gets exactly one sector; hence `numSectors ≥ 1` always.  The two middle
conjuncts spell out that the quotient is indeed the rounding up of
`size / blockSize`. -/
theorem fileNode_numSectors_spec (isForm2 : Bool) (size : Nat) :
    fileNumSectors isForm2 size =
        (if size = 0 then 1
         else (size + fileBlockSize isForm2 - 1) / fileBlockSize isForm2) ∧
      (size ≠ 0 → size ≤ fileNumSectors isForm2 size * fileBlockSize isForm2 ∧
        fileNumSectors isForm2 size * fileBlockSize isForm2 < size + fileBlockSize isForm2) ∧
      1 ≤ fileNumSectors isForm2 size ∧
      fileBlockSize true = M2RAW_SECTOR_SIZE ∧ fileBlockSize false = ISO_BLOCKSIZE := by
  refine ⟨?_, ?_, ?_, rfl, rfl⟩ <;>
    cases isForm2 <;>
      simp only [fileNumSectors, fileBlockSize, M2RAW_SECTOR_SIZE, ISO_BLOCKSIZE,
        Bool.false_eq_true, if_false, if_true]
  · split <;> split <;> omega
  · split <;> split <;> omega
  · intro h
    constructor <;> (split <;> omega)
  · intro h
    constructor <;> (split <;> omega)
  · split <;> omega
  · split <;> omega

/-- Witness for claim C9: a zero-byte Form-1 file occupies one sector,
and a 10-byte Form-1 file fits inside its allocated sectors. -/
theorem fileNode_numSectors_spec_witness :
    fileNumSectors false 0 = 1 ∧
      (10 : Nat) ≤ fileNumSectors false 10 * fileBlockSize false := by
  constructor
  · rw [(fileNode_numSectors_spec false 0).1]
    decide
  · exact ((fileNode_numSectors_spec false 10).2.1 (by decide)).1

/-! ### Claim C5: the size convention of directory records -/

/-- Claim C5: the byte size recorded in a directory record for a child is
the child's real byte size for a Form-1 file, and
`numSectors * ISO_BLOCKSIZE` (a synthetic size) for a Form-2 file and for
a directory; the PSXInject in-place patcher writes the size field under
the same convention. -/
theorem directory_record_size_convention :
    (∀ (name path : String) (req : Nat) (content : List Nat),
        makeDirEntrySizeArg (FSTree.file name path req false content) = content.length) ∧
      (∀ (name path : String) (req : Nat) (content : List Nat),
        makeDirEntrySizeArg (FSTree.file name path req true content) =
          fileNumSectors true content.length * ISO_BLOCKSIZE) ∧
      (∀ (name path : String) (req : Nat) (ddata : List Nat) (children : List FSTree),
        makeDirEntrySizeArg (FSTree.dir name path req ddata children) =
          (FSTree.dir name path req ddata children).numSectors * ISO_BLOCKSIZE) ∧
      (∀ numSectors newSize : Nat,
        injectSizeField true numSectors newSize = numSectors * ISO_BLOCKSIZE) ∧
      (∀ numSectors newSize : Nat, injectSizeField false numSectors newSize = newSize) := by
  refine ⟨?_, ?_, ?_, ?_, ?_⟩ <;> intros <;> rfl

/-! ### Claim C6: single-sector path table check -/

/-- Claim C6: a path table larger than one logical block makes the build
fail with a fatal error (no truncation); a table of at most one block lets
the build proceed and write the four path-table copies (two LSB-first,
two MSB-first) at the four consecutive sectors after the volume
descriptors. -/
theorem pathTable_single_sector_check (ptSize : Nat) :
    (ISO_BLOCKSIZE < ptSize →
      writePathTables ptSize =
        Except.error
          "The path table is larger than one sector. This is currently not supported.") ∧
    (ptSize ≤ ISO_BLOCKSIZE →
      writePathTables ptSize =
        Except.ok
          [⟨18, PathTableKind.lsbFirst, SM_DATA ||| SM_EOF ||| SM_EOR⟩,
           ⟨19, PathTableKind.lsbFirst, SM_DATA ||| SM_EOF ||| SM_EOR⟩,
           ⟨20, PathTableKind.msbFirst, SM_DATA ||| SM_EOF ||| SM_EOR⟩,
           ⟨21, PathTableKind.msbFirst, SM_DATA ||| SM_EOF ||| SM_EOR⟩]) := by
  constructor
  · intro h
    unfold writePathTables
    rw [if_pos h]
  · intro h
    unfold writePathTables
    rw [if_neg (by omega)]
    rfl

/-- Witness for claim C6: a 4096-byte table is rejected, a 96-byte table
is written as four copies. -/
theorem pathTable_single_sector_check_witness :
    writePathTables 4096 =
        Except.error
          "The path table is larger than one sector. This is currently not supported." ∧
      writePathTables 96 =
        Except.ok
          [⟨18, PathTableKind.lsbFirst, SM_DATA ||| SM_EOF ||| SM_EOR⟩,
           ⟨19, PathTableKind.lsbFirst, SM_DATA ||| SM_EOF ||| SM_EOR⟩,
           ⟨20, PathTableKind.msbFirst, SM_DATA ||| SM_EOF ||| SM_EOR⟩,
           ⟨21, PathTableKind.msbFirst, SM_DATA ||| SM_EOF ||| SM_EOR⟩] :=
  ⟨(pathTable_single_sector_check 4096).1 (by decide),
   (pathTable_single_sector_check 96).2 (by decide)⟩

/-- The required sector count is the rounded-up quotient clamped to at
least one sector. -/
theorem injectNumSectors_eq_max (isForm2 : Bool) (newSize : Nat) :
    injectNumSectors isForm2 newSize =
      max 1 ((newSize + fileBlockSize isForm2 - 1) / fileBlockSize isForm2) := by
  cases isForm2 <;>
    simp only [injectNumSectors, fileBlockSize, M2RAW_SECTOR_SIZE, ISO_BLOCKSIZE,
      Bool.false_eq_true, if_false, if_true] <;>
    split <;> omega

/-! ### Claim C7: the injection capacity check -/

/-- Claim C7: when the replacement file needs more sectors (computed with
block size 2336 for a Form-2 target, 2048 for a Form-1 target) than the
target's reserved sector count, the injection fails with a capacity error
carrying the required and available counts, and no write at all is
performed on the image (the check precedes reopening the image for
writing). -/
theorem inject_capacity_check (inp : InjectInput)
    (hpre : inp.fileIsForm2 = true →
      inp.imageIsMode2 = true ∧ inp.newContent.length % M2RAW_SECTOR_SIZE = 0)
    (hcap : inp.maxSectors < injectNumSectors inp.fileIsForm2 inp.newContent.length) :
    injectRun inp =
        Except.error (InjectError.capacity
          (injectNumSectors inp.fileIsForm2 inp.newContent.length) inp.maxSectors) ∧
      injectWrites inp = [] := by
  have hc1 : (inp.fileIsForm2 && !inp.imageIsMode2) = false := by
    cases hf : inp.fileIsForm2
    · simp
    · simp [(hpre hf).1]
  have hc2 : (inp.fileIsForm2 &&
      inp.newContent.length % fileBlockSize inp.fileIsForm2 != 0) = false := by
    cases hf : inp.fileIsForm2
    · simp
    · have h2 := (hpre hf).2
      simp only [hf, Bool.true_and, bne_eq_false_iff_eq]
      show inp.newContent.length % fileBlockSize true = 0
      exact h2
  have hrun : injectRun inp =
      Except.error (InjectError.capacity
        (injectNumSectors inp.fileIsForm2 inp.newContent.length) inp.maxSectors) := by
    simp only [injectRun]
    rw [hc1, hc2]
    simp only [Bool.false_eq_true, if_false]
    rw [if_pos hcap]
  refine ⟨hrun, ?_⟩
  unfold injectWrites
  rw [hrun]

/-- Witness for claim C7: replacing a file whose extent has no reserved
sectors with an empty file (which still needs one sector) fails with a
capacity error reporting 1 required versus 0 available, and performs no
write. -/
theorem inject_capacity_check_witness :
    injectRun ⟨true, false, 100, 0, []⟩ = Except.error (InjectError.capacity 1 0) ∧
      injectWrites ⟨true, false, 100, 0, []⟩ = [] := by
  have h := inject_capacity_check ⟨true, false, 100, 0, []⟩ (by decide) (by decide)
  refine ⟨?_, h.2⟩
  rw [h.1]
  rfl

/-! ### Claim C10: Form-2 injection preconditions -/

/-- Claim C10: for an XA Form-2 injection target, the tool fails before
modifying the image when the image is not a raw Mode-2 image, and when the
replacement's byte size is not a multiple of 2336; when both checks pass
(and the extent has room), the number of sectors written is the
replacement size divided by the block size rounded up, clamped to a
minimum of one sector for an empty replacement. -/
theorem inject_form2_preconditions (inp : InjectInput) (hform2 : inp.fileIsForm2 = true) :
    (inp.imageIsMode2 = false →
      injectRun inp = Except.error InjectError.notMode2Image ∧ injectWrites inp = []) ∧
    (inp.imageIsMode2 = true → inp.newContent.length % M2RAW_SECTOR_SIZE ≠ 0 →
      injectRun inp = Except.error InjectError.sizeNotMultiple ∧ injectWrites inp = []) ∧
    (inp.imageIsMode2 = true → inp.newContent.length % M2RAW_SECTOR_SIZE = 0 →
      injectNumSectors true inp.newContent.length ≤ inp.maxSectors →
      injectRun inp =
          Except.ok ((List.range (injectNumSectors true inp.newContent.length)).map
            (injectLoopWrite inp (injectNumSectors true inp.newContent.length))) ∧
        (injectWrites inp).length =
          max 1 ((inp.newContent.length + M2RAW_SECTOR_SIZE - 1) / M2RAW_SECTOR_SIZE)) := by
  refine ⟨?_, ?_, ?_⟩
  · intro hm
    have hrun : injectRun inp = Except.error InjectError.notMode2Image := by
      simp only [injectRun]
      rw [show (inp.fileIsForm2 && !inp.imageIsMode2) = true by simp [hform2, hm]]
      rfl
    exact ⟨hrun, by unfold injectWrites; rw [hrun]⟩
  · intro hm hmul
    have hrun : injectRun inp = Except.error InjectError.sizeNotMultiple := by
      simp only [injectRun]
      rw [show (inp.fileIsForm2 && !inp.imageIsMode2) = false by simp [hform2, hm]]
      simp only [Bool.false_eq_true, if_false]
      rw [show (inp.fileIsForm2 &&
          inp.newContent.length % fileBlockSize inp.fileIsForm2 != 0) = true by
        simp [hform2]
        exact hmul]
      rfl
    exact ⟨hrun, by unfold injectWrites; rw [hrun]⟩
  · intro hm hmul hcap
    have hrun : injectRun inp =
        Except.ok ((List.range (injectNumSectors true inp.newContent.length)).map
          (injectLoopWrite inp (injectNumSectors true inp.newContent.length))) := by
      simp only [injectRun]
      rw [show (inp.fileIsForm2 && !inp.imageIsMode2) = false by simp [hform2, hm]]
      simp only [Bool.false_eq_true, if_false]
      rw [show (inp.fileIsForm2 &&
          inp.newContent.length % fileBlockSize inp.fileIsForm2 != 0) = false by
        simp [hform2]
        exact hmul]
      simp only [Bool.false_eq_true, if_false, hform2]
      rw [if_neg (by omega)]
    refine ⟨hrun, ?_⟩
    unfold injectWrites
    rw [hrun]
    simp only [List.length_map, List.length_range]
    rw [injectNumSectors_eq_max]
    rfl

/-- Witness for claim C10: a Form-2 target in a non-Mode-2 image is
rejected, a replacement whose size is not a multiple of 2336 is rejected,
and a valid empty replacement still writes exactly one (clamped) sector. -/
theorem inject_form2_preconditions_witness :
    injectRun ⟨false, true, 0, 5, []⟩ = Except.error InjectError.notMode2Image ∧
      injectRun ⟨true, true, 0, 5, [1]⟩ = Except.error InjectError.sizeNotMultiple ∧
      (injectWrites ⟨true, true, 50, 2, []⟩).length = 1 := by
  refine ⟨?_, ?_, ?_⟩
  · exact ((inject_form2_preconditions ⟨false, true, 0, 5, []⟩ rfl).1 rfl).1
  · exact ((inject_form2_preconditions ⟨true, true, 0, 5, [1]⟩ rfl).2.1 rfl (by decide)).1
  · have h := ((inject_form2_preconditions ⟨true, true, 50, 2, []⟩ rfl).2.2
      rfl (by decide) (by decide)).2
    rw [h]
    decide

/-! ### Claim C4: directory size calculation -/

/-- The wrapped `uint32_t` padding expression equals the bytes remaining
in the current 2048-byte block (because `2048` divides `2 ^ 32`). -/
theorem boundaryPad_eq (size : Nat) :
    boundaryPad size = (ISO_BLOCKSIZE - size % ISO_BLOCKSIZE) % ISO_BLOCKSIZE := by
  simp only [boundaryPad, ISO_BLOCKSIZE]
  omega

/-- Bounds on the directory record size: at least 48 bytes (the size of a
`.` record) and at most the name length plus 49. -/
theorem iso9660DirCalcRecordSize_bounds (n : Nat) :
    48 ≤ iso9660DirCalcRecordSize n ∧ iso9660DirCalcRecordSize n ≤ n + 49 := by
  simp only [iso9660DirCalcRecordSize, sizeof_iso9660_xa]
  split <;> split <;> omega

/-- The source's loop step decomposed into explicit padding plus record
size. -/
theorem calcDirStep_decompose (size n : Nat) :
    calcDirStep size n = size +
      (if size / ISO_BLOCKSIZE ≠ (size + iso9660DirCalcRecordSize n) / ISO_BLOCKSIZE
       then boundaryPad size else 0) + iso9660DirCalcRecordSize n := by
  simp only [calcDirStep]
  split <;> omega

/-- The source's loop step agrees with the amended padding rule on every
input: the quotient comparison fires exactly when the record would cross a
block boundary or end exactly on one. -/
theorem calcDirStep_eq_amended (size n : Nat) :
    calcDirStep size n = calcDirStepAmended size n := by
  have hpad := boundaryPad_eq size
  simp only [calcDirStep, calcDirStepAmended, ISO_BLOCKSIZE] at *
  by_cases h : size / 2048 ≠ (size + iso9660DirCalcRecordSize n) / 2048
  · rw [if_pos h, if_pos (by omega), hpad]
    omega
  · rw [if_neg h, if_neg (by omega)]

/-- The whole child loop agrees with the amended rule. -/
theorem calcDirSizeAux_eq_amended (names : List String) :
    ∀ size, calcDirSizeAux size names = calcDirSizeAuxAmended size names := by
  induction names with
  | nil => intro size; rfl
  | cons name rest ih =>
      intro size
      simp only [calcDirSizeAux, calcDirSizeAuxAmended, calcDirStep_eq_amended]
      exact ih _

/-- The child loop never shrinks the accumulated size. -/
theorem calcDirSizeAux_le (names : List String) :
    ∀ size, size ≤ calcDirSizeAux size names := by
  induction names with
  | nil => intro size; exact Nat.le_refl size
  | cons name rest ih =>
      intro size
      have h1 : size ≤ calcDirStep size name.length := by
        simp only [calcDirStep]
        split <;> omega
      exact Nat.le_trans h1 (ih _)

/-- The record spans track the loop accumulator: the loop result is the
end of the last span (or the incoming size for a childless directory). -/
theorem calcDirSizeAux_eq_spans_end (names : List String) :
    ∀ size, calcDirSizeAux size names =
      (dirRecordSpansAux size names).foldl (fun _ pr => pr.1 + pr.2) size := by
  induction names with
  | nil => intro size; rfl
  | cons name rest ih =>
      intro size
      simp only [calcDirSizeAux, dirRecordSpansAux, List.foldl_cons, calcDirStep_decompose]
      exact ih _

/-- No child record span crosses a 2048-byte block boundary, provided
every name fits in the single length byte of a directory record. -/
theorem dirRecordSpansAux_no_cross (names : List String) :
    ∀ size, (∀ s ∈ names, s.length ≤ 255) →
      ∀ pr ∈ dirRecordSpansAux size names,
        pr.1 / ISO_BLOCKSIZE = (pr.1 + pr.2 - 1) / ISO_BLOCKSIZE := by
  induction names with
  | nil => intro size _ pr hpr; simp [dirRecordSpansAux] at hpr
  | cons name rest ih =>
      intro size hlen pr hpr
      simp only [dirRecordSpansAux, List.mem_cons] at hpr
      rcases hpr with heq | htail
      · subst heq
        have hb := iso9660DirCalcRecordSize_bounds name.length
        have hl : name.length ≤ 255 := hlen name (List.mem_cons_self name rest)
        have hpad := boundaryPad_eq size
        simp only [ISO_BLOCKSIZE] at hpad ⊢
        by_cases h : size / 2048 ≠ (size + iso9660DirCalcRecordSize name.length) / 2048
        · rw [if_pos h, hpad]
          omega
        · rw [if_neg h]
          omega
      · exact ih _ (fun s hs => hlen s (List.mem_cons_of_mem name hs)) pr htail

/-- Counterexample for claim C4 as stated: in a directory whose 40 sorted
child names are `cexNames`, the final child record would end exactly at
byte 2048 without crossing a block boundary, so the claim's literal rule
("pad only when the record would straddle a boundary") yields 2048 bytes
(one sector), but the code pads and yields 2096 bytes (two sectors).  The
name list is strictly sorted, so it is a legitimate `sortedChildren`
sequence. -/
theorem calcDirSize_boundary_cex :
    calcDirSizeBytes cexNames = 2096 ∧ calcDirSizeBytesClaim cexNames = 2048 ∧
      calcDirNumSectors cexNames = 2 ∧ calcDirNumSectorsClaim cexNames = 1 ∧
      List.Pairwise (fun a b : String => nameLt a b = true) cexNames := by
  refine ⟨by decide, by decide, by decide, by decide, by decide⟩

/-- Claim C4 (amended): the directory size computation processes the `.`
and `..` records followed by one record per child in name-sorted order;
padding equal to the bytes remaining in the current block is added before
a record exactly when the record would cross a block boundary *or end
exactly on one*; the final size is the byte size rounded up to whole
blocks; consequently no record crosses a block boundary and every
directory occupies at least one block. -/
theorem calcDirSize_padding_rounding (names : List String)
    (hlen : ∀ s ∈ names, s.length ≤ 255) :
    calcDirSizeBytes names = calcDirSizeBytesAmended names ∧
      (∀ pr ∈ dirRecordSpans names,
        pr.1 / ISO_BLOCKSIZE = (pr.1 + pr.2 - 1) / ISO_BLOCKSIZE) ∧
      calcDirNumSectors names = (calcDirSizeBytes names + ISO_BLOCKSIZE - 1) / ISO_BLOCKSIZE ∧
      calcDirSizeBytes names ≤ calcDirNumSectors names * ISO_BLOCKSIZE ∧
      calcDirNumSectors names * ISO_BLOCKSIZE < calcDirSizeBytes names + ISO_BLOCKSIZE ∧
      1 ≤ calcDirNumSectors names := by
  have hsize : 96 ≤ calcDirSizeBytes names := by
    have h := calcDirSizeAux_le names (iso9660DirCalcRecordSize 1 + iso9660DirCalcRecordSize 1)
    simpa [calcDirSizeBytes] using h
  refine ⟨?_, ?_, rfl, ?_, ?_, ?_⟩
  · exact calcDirSizeAux_eq_amended names _
  · intro pr hpr
    simp only [dirRecordSpans, List.mem_cons] at hpr
    rcases hpr with heq | heq | htail
    · subst heq; decide
    · subst heq; decide
    · exact dirRecordSpansAux_no_cross names _ hlen pr htail
  · simp only [calcDirNumSectors, ISO_BLOCKSIZE] at *
    omega
  · simp only [calcDirNumSectors, ISO_BLOCKSIZE] at *
    omega
  · simp only [calcDirNumSectors, ISO_BLOCKSIZE] at *
    omega

/-- Witness for the amended claim C4 on a one-child directory: the sizes
agree between the source rule and the amended rule, and the directory
occupies (at least) one block. -/
theorem calcDirSize_padding_rounding_witness :
    calcDirSizeBytes ["AA.TXT;1"] = calcDirSizeBytesAmended ["AA.TXT;1"] ∧
      1 ≤ calcDirNumSectors ["AA.TXT;1"] := by
  have h := calcDirSize_padding_rounding ["AA.TXT;1"] (by decide)
  exact ⟨h.1, h.2.2.2.2.2⟩

end PSXImager
